import Mathlib

/-!
Verification of the conversational query-resolution pipeline of the
ut-jira-helper repository.  The definitions below are a shallow embedding of
the `ConversationalHelper` class (frontend conversational AI helper module):
`getLocalResponse`, `searchTasks`, `getCreateTaskResponse`,
`getSummaryResponse`, and the other per-intent response builders.

JavaScript strings are modelled as Lean `String`; `String.prototype.includes`
is modelled by `jsIncludes`; `toLowerCase` by `jsToLower` (mapping
`Char.toLower` over the characters, which is exact for the ASCII keywords the
code matches on); optional task fields (`description`, `assignee`, reached in
the source through optional chaining `?.`) are `Option String`.

The one effectful branch, `handleWeeklyResolvedQuery`, performs a network
fetch; its outcome is modelled by an explicit oracle argument
`weeklyFetch : Option Analytics` (`some a` = the fetch succeeded and the JSON
parsed to `a`; `none` = any failure caught by the surrounding try/catch).
-/

namespace JiraHelper

/-- Task record as consumed by the conversational helper: the code reads
`id`, `title`, `status` unconditionally and `description` / `assignee` only
through optional chaining, so the latter two are `Option`. -/
structure Task where
  id : String
  title : String
  status : String
  description : Option String
  assignee : Option String
deriving DecidableEq

/-- Shape of the JSON returned by the weekly-resolved analytics endpoint, as
consumed by `handleWeeklyResolvedQuery`.  `average_per_week` is only ever
interpolated into the response text, so it is modelled by its printed form. -/
structure Analytics where
  averagePerWeek : String
  totalResolved : Nat
  weeksAnalyzed : Nat
  weeklyBreakdown : List (String × Nat)
deriving DecidableEq

/-- Result object built by every branch of `getLocalResponse`.  Branches that
do not set `chartData` leave it `undefined` in the source, modelled `none`. -/
structure ResponseResult where
  text : String
  taskCount : Nat
  suggestedActions : List String
  chartRecommendation : Option String
  chartData : Option Analytics
deriving DecidableEq

/-- Model of `String.prototype.toLowerCase` (exact on ASCII). -/
def jsToLower (s : String) : String :=
  String.mk (s.data.map Char.toLower)

/-- Does the list `pre` occur at the head of `l`? -/
def isPrefixList : List Char → List Char → Bool
  | [], _ => true
  | _ :: _, [] => false
  | a :: as, b :: bs => a = b && isPrefixList as bs

/-- Does `sub` occur as a contiguous sublist of `l`?  (The empty list occurs
in every list, matching JavaScript `includes("")`.) -/
def listHasSub (sub : List Char) : List Char → Bool
  | [] => sub.isEmpty
  | l@(_ :: t) => isPrefixList sub l || listHasSub sub t

/-- Model of `s.includes(pat)` on JavaScript strings. -/
def jsIncludes (s pat : String) : Bool :=
  listHasSub pat.data s.data

/-- The filter predicate of `searchTasks`: the query matches a task when its
lowercase form is a substring of the lowercase `title`, `description` (when
present), `id`, `status`, or `assignee` (when present). -/
def taskMatches (query : String) (t : Task) : Bool :=
  jsIncludes (jsToLower t.title) (jsToLower query) ||
  (match t.description with
   | some d => jsIncludes (jsToLower d) (jsToLower query)
   | none => false) ||
  jsIncludes (jsToLower t.id) (jsToLower query) ||
  jsIncludes (jsToLower t.status) (jsToLower query) ||
  (match t.assignee with
   | some a => jsIncludes (jsToLower a) (jsToLower query)
   | none => false)

/-- Embedding of `searchTasks(query)`: `this.tasks.filter(...)`. -/
def searchTasks (tasks : List Task) (query : String) : List Task :=
  tasks.filter (taskMatches query)

/-- Intent implicitly computed by the ordered if/else chain of
`getLocalResponse`; one constructor per branch. -/
inductive Intent where
  | createTask
  | inProgress
  | toDo
  | done
  | summary
  | assigneeUser1
  | assigneeUser2
  | weeklyAnalytics
  | workload
  | priority
  | help
  | search
  | unknown
deriving DecidableEq

/-- Guard of the task-creation branch. -/
def condCreate (lq : String) : Bool :=
  jsIncludes lq "create" || jsIncludes lq "add" || jsIncludes lq "new task"

/-- Guard of the in-progress branch. -/
def condInProgress (lq : String) : Bool :=
  jsIncludes lq "in progress" || jsIncludes lq "working on"

/-- Guard of the to-do branch. -/
def condToDo (lq : String) : Bool :=
  jsIncludes lq "to do" || jsIncludes lq "todo" || jsIncludes lq "pending"

/-- Guard of the done branch. -/
def condDone (lq : String) : Bool :=
  jsIncludes lq "done" || jsIncludes lq "completed" || jsIncludes lq "finished"

/-- Guard of the summary branch. -/
def condSummary (lq : String) : Bool :=
  jsIncludes lq "summary" || jsIncludes lq "overview" || jsIncludes lq "status"

/-- Guard of the user1 assignee branch. -/
def condUser1 (lq : String) : Bool :=
  jsIncludes lq "user1" || jsIncludes lq "assigned to user1"

/-- Guard of the user2 assignee branch. -/
def condUser2 (lq : String) : Bool :=
  jsIncludes lq "user2" || jsIncludes lq "assigned to user2"

/-- Guard of the weekly-resolved analytics branch. -/
def condWeekly (lq : String) : Bool :=
  jsIncludes lq "average resolved" || jsIncludes lq "weekly resolved" ||
  jsIncludes lq "resolved per week"

/-- Guard of the workload branch. -/
def condWorkload (lq : String) : Bool :=
  jsIncludes lq "workload" || jsIncludes lq "how many" || jsIncludes lq "count"

/-- Guard of the priority branch. -/
def condPriority (lq : String) : Bool :=
  jsIncludes lq "urgent" || jsIncludes lq "priority" || jsIncludes lq "important"

/-- Guard of the help branch. -/
def condHelp (lq : String) : Bool :=
  jsIncludes lq "help" || jsIncludes lq "what can" || jsIncludes lq "?"

/-- The intent selected by the ordered if/else chain of `getLocalResponse`,
read off branch by branch in source order.  The chain lowercases the query
once (`const lowerQuery = query.toLowerCase()`); the final fallback runs the
substring search and yields `search` when it found anything, else `unknown`. -/
def classify (tasks : List Task) (query : String) : Intent :=
  let lq := jsToLower query
  if condCreate lq then .createTask
  else if condInProgress lq then .inProgress
  else if condToDo lq then .toDo
  else if condDone lq then .done
  else if condSummary lq then .summary
  else if condUser1 lq then .assigneeUser1
  else if condUser2 lq then .assigneeUser2
  else if condWeekly lq then .weeklyAnalytics
  else if condWorkload lq then .workload
  else if condPriority lq then .priority
  else if condHelp lq then .help
  else if (searchTasks tasks query).isEmpty then .unknown
  else .search

/-- One step of the `reduce` that builds the status-count object: JavaScript
object keys keep insertion order, so the accumulator is an association list —
an existing key is bumped in place, a new key is appended. -/
def bumpCount (key : String) : List (String × Nat) → List (String × Nat)
  | [] => [(key, 1)]
  | (k, v) :: rest =>
    if k = key then (k, v + 1) :: rest else (k, v) :: bumpCount key rest

/-- The `statusCounts` object of `getSummaryResponse` / `getAssigneeResponse`. -/
def statusCounts (tasks : List Task) : List (String × Nat) :=
  tasks.foldl (fun acc t => bumpCount t.status acc) []

/-- Total of the counts held in a status-count object. -/
def sumCounts (l : List (String × Nat)) : Nat :=
  (l.map Prod.snd).sum

/-- Model of indexing the count object with a key: JavaScript yields
`undefined` (used only for truthiness, with every stored count positive) for
an absent key, modelled as `0`. -/
def lookupCount (key : String) : List (String × Nat) → Nat
  | [] => 0
  | (k, v) :: rest => if k = key then v else lookupCount key rest

/-- Emoji chosen per status line of the summary. -/
def statusEmoji (status : String) : String :=
  if status = "Done" then "✅"
  else if status = "In Progress" then "🔄" else "📋"

/-- The per-status lines appended by the `forEach` over `statusCounts`. -/
def summaryStatusLines (counts : List (String × Nat)) : String :=
  String.intercalate ""
    (counts.map (fun p =>
      statusEmoji p.1 ++ " " ++ p.1 ++ ": " ++ toString p.2 ++ "\n"))

/-- Model of `Math.round((done / total) * 100)`: round-half-up of the exact
rational `done * 100 / total` (the double-precision computation in the source
is exact at these magnitudes). -/
def jsRoundPct (done total : Nat) : Nat :=
  (200 * done + total) / (2 * total)

/-- The summary text before the optional completion-percentage suffix. -/
def summaryBase (tasks : List Task) : String :=
  "Here\u0027s your project overview:\n\n📊 Total Tasks: " ++
    toString tasks.length ++ "\n" ++ summaryStatusLines (statusCounts tasks)

/-- The completion-percentage suffix, appended exactly when indexing the
status counts with the Done key is truthy (present, hence positive). -/
def summaryPercent (tasks : List Task) : String :=
  let d := lookupCount "Done" (statusCounts tasks)
  if d = 0 then ""
  else "\n🎯 Progress: " ++ toString (jsRoundPct d tasks.length) ++ "% complete"

/-- Embedding of `getSummaryResponse`. -/
def getSummaryResponse (tasks : List Task) : String :=
  summaryBase tasks ++ summaryPercent tasks

/-- Bulleted `id: title` list used by the status-intent responses. -/
def taskListLines (tasks : List Task) : String :=
  String.intercalate "\n" (tasks.map (fun t => "• " ++ t.id ++ ": " ++ t.title))

/-- Embedding of `getInProgressResponse`. -/
def getInProgressResponse (tasks : List Task) : String :=
  let inProgressTasks := tasks.filter (fun t => t.status == "In Progress")
  if inProgressTasks.isEmpty then
    "Great news! There are no tasks currently in progress. Everything is either completed or waiting to be started."
  else
    "Currently, there " ++ (if inProgressTasks.length = 1 then "is" else "are") ++
      " " ++ toString inProgressTasks.length ++ " task" ++
      (if inProgressTasks.length = 1 then "" else "s") ++
      " in progress:\n\n" ++ taskListLines inProgressTasks

/-- Embedding of `getToDoResponse`. -/
def getToDoResponse (tasks : List Task) : String :=
  let todoTasks := tasks.filter (fun t => t.status == "To Do")
  if todoTasks.isEmpty then
    "Excellent! There are no pending tasks in your backlog. All tasks are either in progress or completed."
  else
    "You have " ++ toString todoTasks.length ++ " task" ++
      (if todoTasks.length = 1 then "" else "s") ++
      " waiting to be started:\n\n" ++ taskListLines todoTasks ++
      "\n\nReady to tackle any of these?"

/-- Embedding of `getDoneResponse`. -/
def getDoneResponse (tasks : List Task) : String :=
  let doneTasks := tasks.filter (fun t => t.status == "Done")
  if doneTasks.isEmpty then
    "No tasks are marked as completed yet. Keep working - you\u0027ll get there!"
  else
    "Well done! You\u0027ve completed " ++ toString doneTasks.length ++ " task" ++
      (if doneTasks.length = 1 then "" else "s") ++ ":\n\n" ++
      taskListLines doneTasks ++ "\n\n🎉 Keep up the great work!"

/-- Embedding of `getAssigneeResponse` (filters by strict equality
`task.assignee === assignee`). -/
def getAssigneeResponse (tasks : List Task) (assignee : String) : String :=
  let userTasks := tasks.filter (fun t => t.assignee == some assignee)
  if userTasks.isEmpty then
    assignee ++ " doesn\u0027t have any tasks assigned currently."
  else
    assignee ++ " has " ++ toString userTasks.length ++ " task" ++
      (if userTasks.length = 1 then "" else "s") ++ " assigned:\n\n" ++
      String.intercalate ""
        ((statusCounts userTasks).map (fun p =>
          "• " ++ toString p.2 ++ " " ++ p.1 ++ "\n"))

/-- The assignee-count object of `getWorkloadResponse`: tasks whose
`assignee` is falsy (absent or empty) are skipped. -/
def workloadCounts (tasks : List Task) : List (String × Nat) :=
  tasks.foldl
    (fun acc t =>
      match t.assignee with
      | some a => if a = "" then acc else bumpCount a acc
      | none => acc) []

/-- Embedding of `getWorkloadResponse`. -/
def getWorkloadResponse (tasks : List Task) : String :=
  let counts := workloadCounts tasks
  if counts.isEmpty then "No tasks are currently assigned to anyone."
  else
    "Current workload distribution:\n\n" ++
      String.intercalate ""
        (counts.map (fun p =>
          "• " ++ p.1 ++ ": " ++ toString p.2 ++ " task" ++
            (if p.2 = 1 then "" else "s") ++ "\n"))

/-- Embedding of `getPriorityResponse` (uses the In Progress subset as a
stand-in for urgency, but only in the text). -/
def getPriorityResponse (tasks : List Task) : String :=
  let urgentTasks := tasks.filter (fun t => t.status == "In Progress")
  if urgentTasks.isEmpty then
    "No tasks are currently in progress, so nothing is immediately urgent. Consider starting on your \u0027To Do\u0027 items."
  else
    "The most urgent items are the " ++ toString urgentTasks.length ++
      " task" ++ (if urgentTasks.length = 1 then "" else "s") ++
      " currently in progress. Focus on completing these first!"

/-- Embedding of `getSearchResultsResponse`. -/
def getSearchResultsResponse (query : String) (results : List Task) : String :=
  match results with
  | [task] =>
    "I found one task matching \"" ++ query ++ "\":\n\n" ++
      task.id ++ ": " ++ task.title ++ "\nStatus: " ++ task.status ++
      "\nAssigned to: " ++
      (match task.assignee with
       | some a => if a = "" then "Unassigned" else a
       | none => "Unassigned")
  | _ =>
    "I found " ++ toString results.length ++ " task" ++
      (if results.length = 1 then "" else "s") ++ " matching \"" ++ query ++
      "\":\n\n" ++
      String.intercalate "\n"
        ((results.take 3).map (fun t =>
          "• " ++ t.id ++ ": " ++ t.title ++ " (" ++ t.status ++ ")")) ++
      (if results.length > 3 then
        "\n...and " ++ toString (results.length - 3) ++ " more"
      else "")

/-- Embedding of `getHelpResponse` (a static capability listing). -/
def getHelpResponse : String :=
  "Hi! I\u0027m here to help you with your Jira tasks. You can ask me things like:\n\n📋 **Task Information:**\n• \"What\u0027s in progress?\" - See current work\n• \"What needs to be done?\" - View pending tasks  \n• \"Show me completed tasks\" - See what\u0027s done\n• \"Give me a summary\" - Project overview\n• \"What\u0027s user1 working on?\" - User workload\n\n🔍 **Search:**\n• Search for specific tasks by name or ID\n• \"Find login tasks\" - Search by keywords\n\n💬 **Conversational:**\n• \"Create task: Fix navigation bug\" - Task creation guidance\n• \"Show workload distribution\" - Team insights\n• Natural language queries about your project\n\nJust type naturally and I\u0027ll do my best to help! 🤖\n\n*Note: This is a demo AI assistant. In a full implementation, it would integrate with actual Jira APIs and could use local LLM models for enhanced capabilities.*"

/-- Embedding of `getDefaultResponse`. -/
def getDefaultResponse (query : String) : String :=
  "I\u0027m not sure how to help with \"" ++ query ++
    "\" specifically, but I can search your tasks or answer questions about task status, assignments, and progress. Try asking \"help\" to see what I can do!"

/-- Character class `[:\s]` of the title-extraction patterns (colon or
whitespace). -/
def isSepChar (c : Char) : Bool :=
  c = ':' || c = ' ' || c = '\t' || c = '\n' || c = '\r'

/-- Character class `[.!?]` excluded from the captured title. -/
def isStopChar (c : Char) : Bool :=
  c = '.' || c = '!' || c = '?'

/-- Case-insensitive match of a keyword against the head of the input,
returning the remaining input on success (the `/i` flag of the patterns). -/
def matchKeywordCI : List Char → List Char → Option (List Char)
  | [], rest => some rest
  | _ :: _, [] => none
  | k :: ks, c :: cs =>
    if Char.toLower c = Char.toLower k then matchKeywordCI ks cs else none

/-- Attempt of one pattern `keyword[:\s]+([^.!?]*)` at the current position:
the keyword, then at least one separator (greedy run), then the capture group
running up to the first `.`, `!` or `?`. -/
def capAt (kw : List Char) (l : List Char) : Option (List Char) :=
  match matchKeywordCI kw l with
  | none => none
  | some rest =>
    match rest with
    | [] => none
    | c :: cs =>
      if isSepChar c then
        some ((cs.dropWhile isSepChar).takeWhile (fun ch => !(isStopChar ch)))
      else none

/-- Leftmost full match of one pattern, as `String.prototype.match` finds it:
try each start position left to right. -/
def findCap (kw : List Char) : List Char → Option (List Char)
  | [] => none
  | l@(_ :: t) =>
    match capAt kw l with
    | some cap => some cap
    | none => findCap kw t

/-- Model of `String.prototype.trim`. -/
def jsTrim (s : String) : String :=
  String.mk
    (((s.data.dropWhile Char.isWhitespace).reverse.dropWhile
        Char.isWhitespace).reverse)

/-- The ordered pattern keywords of `getCreateTaskResponse`. -/
def createKeywords : List String :=
  ["create task", "add task", "new task", "create"]

/-- The pattern loop of `getCreateTaskResponse`: the first pattern whose
leftmost match has a non-empty capture wins and its capture is trimmed; a
pattern whose leftmost match captures the empty string is skipped
(`match && match[1]` with an empty, falsy capture). -/
def extractFrom : List String → List Char → String
  | [], _ => ""
  | kw :: rest, q =>
    match findCap kw.data q with
    | some cap => if cap.isEmpty then extractFrom rest q else jsTrim (String.mk cap)
    | none => extractFrom rest q

/-- Title proposed by the creation branch for a raw query. -/
def extractTitle (query : String) : String :=
  extractFrom createKeywords query.data

/-- Embedding of `getCreateTaskResponse`: guidance text around the extracted
title, or a prompt for one; the task list is never consulted. -/
def getCreateTaskResponse (query : String) : String :=
  let taskTitle := extractTitle query
  if taskTitle = "" then
    "I can help you create a new task! Try saying something like:\n• \"Create task: Fix the login bug\"\n• \"Add task: Update documentation\"\n• \"New task: Implement user dashboard\"\n\nWhat task would you like to create?"
  else
    "I\u0027d be happy to help you create a task! Here\u0027s what I understood:\n\n📝 Task Title: \"" ++
      taskTitle ++
      "\"\n\nTo create this task, you would need to use the task creation feature. In a real Jira integration, this would automatically create the task for you.\n\nWould you like me to help you with anything else about this task, such as:\n• Setting an assignee\n• Adding a description  \n• Setting the priority\n• Checking similar existing tasks"

/-- The filter used for the `taskCount` of the two assignee branches:
`task.assignee?.includes(token)`. -/
def assigneeHasToken (t : Task) (token : String) : Bool :=
  match t.assignee with
  | some a => jsIncludes a token
  | none => false

/-- Assignee detection inside `handleWeeklyResolvedQuery`. -/
def detectWeeklyAssignee (lq : String) : Option String :=
  if jsIncludes lq "user1" || jsIncludes lq "for user1" then
    some "user1@example.com"
  else if jsIncludes lq "user2" || jsIncludes lq "for user2" then
    some "user2@example.com"
  else none

/-- Embedding of `handleWeeklyResolvedQuery` with the fetch outcome supplied
as `fetched` (`none` = the try/catch fallback path). -/
def handleWeeklyResolvedQuery (query : String) (fetched : Option Analytics) :
    ResponseResult :=
  match fetched with
  | none =>
    { text := "Sorry, I couldn\u0027t fetch the weekly resolved analytics right now. Please try again later.",
      taskCount := 0,
      suggestedActions := ["Try again", "Check connection"],
      chartRecommendation := none,
      chartData := none }
  | some analytics =>
    let assigneeText :=
      match detectWeeklyAssignee (jsToLower query) with
      | some a => " for " ++ a
      | none => ""
    { text :=
        "Weekly Resolved Tasks Analysis" ++ assigneeText ++
          ":\n\n📊 **Average:** " ++ analytics.averagePerWeek ++
          " tasks per week\n📈 **Total Resolved:** " ++
          toString analytics.totalResolved ++ " tasks in " ++
          toString analytics.weeksAnalyzed ++
          " weeks\n\n**Weekly Breakdown:**\n" ++
          String.intercalate "\n"
            (analytics.weeklyBreakdown.map (fun p =>
              "• " ++ p.1 ++ ": " ++ toString p.2 ++ " task" ++
                (if p.2 = 1 then "" else "s"))) ++
          "\n\n" ++
          (if analytics.totalResolved > 0 then "🎯 Keep up the great work!"
           else "💡 Consider reviewing task completion workflow."),
      taskCount := analytics.totalResolved,
      suggestedActions :=
        ["View detailed breakdown", "Export analytics", "Compare assignees"],
      chartRecommendation := some "weekly_trend",
      chartData := some analytics }

/-- Embedding of `getLocalResponse`: the if/else chain factored as the
`classify` guard cascade followed by the per-branch result, with the weekly
branch taking the fetch-outcome oracle. -/
def getLocalResponse (tasks : List Task) (query : String)
    (weeklyFetch : Option Analytics) : ResponseResult :=
  match classify tasks query with
  | .createTask =>
    { text := getCreateTaskResponse query,
      taskCount := 0,
      suggestedActions := ["Set assignee", "Add description", "Create task via API"],
      chartRecommendation := none, chartData := none }
  | .inProgress =>
    { text := getInProgressResponse tasks,
      taskCount := (tasks.filter (fun t => t.status == "In Progress")).length,
      suggestedActions := ["View task details", "Update status", "Mark as done"],
      chartRecommendation := some "timeline", chartData := none }
  | .toDo =>
    { text := getToDoResponse tasks,
      taskCount := (tasks.filter (fun t => t.status == "To Do")).length,
      suggestedActions := ["Start working", "Assign tasks", "Prioritize"],
      chartRecommendation := some "table", chartData := none }
  | .done =>
    { text := getDoneResponse tasks,
      taskCount := (tasks.filter (fun t => t.status == "Done")).length,
      suggestedActions := ["View completed", "Archive tasks", "Generate report"],
      chartRecommendation := some "pie", chartData := none }
  | .summary =>
    { text := getSummaryResponse tasks,
      taskCount := tasks.length,
      suggestedActions := ["Show pie chart", "View detailed breakdown", "Export data"],
      chartRecommendation := some "pie", chartData := none }
  | .assigneeUser1 =>
    { text := getAssigneeResponse tasks "user1@example.com",
      taskCount := (tasks.filter (fun t => assigneeHasToken t "user1")).length,
      suggestedActions := ["View user tasks", "Check workload", "Reassign tasks"],
      chartRecommendation := some "bar", chartData := none }
  | .assigneeUser2 =>
    { text := getAssigneeResponse tasks "user2@example.com",
      taskCount := (tasks.filter (fun t => assigneeHasToken t "user2")).length,
      suggestedActions := ["View user tasks", "Check workload", "Reassign tasks"],
      chartRecommendation := some "bar", chartData := none }
  | .weeklyAnalytics => handleWeeklyResolvedQuery query weeklyFetch
  | .workload =>
    { text := getWorkloadResponse tasks,
      taskCount := tasks.length,
      suggestedActions := ["Show bar chart", "Balance workload", "View individual assignments"],
      chartRecommendation := some "bar", chartData := none }
  | .priority =>
    { text := getPriorityResponse tasks,
      taskCount := tasks.length,
      suggestedActions := ["Filter by priority", "View urgent tasks", "Sort by importance"],
      chartRecommendation := some "bar", chartData := none }
  | .help =>
    { text := getHelpResponse,
      taskCount := tasks.length,
      suggestedActions := ["Try sample query", "View task summary", "Create new task"],
      chartRecommendation := none, chartData := none }
  | .search =>
    let searchResults := searchTasks tasks query
    { text := getSearchResultsResponse query searchResults,
      taskCount := searchResults.length,
      suggestedActions := ["View task details", "Refine search", "Filter results"],
      chartRecommendation := some "table", chartData := none }
  | .unknown =>
    { text := getDefaultResponse query,
      taskCount := 0,
      suggestedActions := ["Ask for help", "Try different query", "View all tasks"],
      chartRecommendation := none, chartData := none }

/-- Appending strings appends their character data. -/
theorem strData_append (s t : String) : (s ++ t).data = s.data ++ t.data := by
  cases s; cases t; rfl

/-- A string is empty exactly when its character data is. -/
theorem str_eq_empty_iff (s : String) : s = "" ↔ s.data = [] :=
  ⟨fun h => h ▸ rfl, fun h => String.ext h⟩

/-- A concatenation with a non-empty left part is non-empty. -/
theorem append_ne_left {s : String} (t : String) (h : s ≠ "") : s ++ t ≠ "" := by
  intro hc
  rw [str_eq_empty_iff, strData_append, List.append_eq_nil] at hc
  exact h ((str_eq_empty_iff s).mpr hc.1)

/-- A concatenation with a non-empty right part is non-empty. -/
theorem append_ne_right (s : String) {t : String} (h : t ≠ "") : s ++ t ≠ "" := by
  intro hc
  rw [str_eq_empty_iff, strData_append, List.append_eq_nil] at hc
  exact h ((str_eq_empty_iff t).mpr hc.2)

/-- The in-progress response text is never empty. -/
theorem getInProgressResponse_ne (tasks : List Task) :
    getInProgressResponse tasks ≠ "" := by
  unfold getInProgressResponse
  dsimp only
  split
  · decide
  · repeat (first | decide | exact append_ne_right _ (by decide) | apply append_ne_left)

/-- The to-do response text is never empty. -/
theorem getToDoResponse_ne (tasks : List Task) : getToDoResponse tasks ≠ "" := by
  unfold getToDoResponse
  dsimp only
  split
  · decide
  · repeat (first | decide | exact append_ne_right _ (by decide) | apply append_ne_left)

/-- The done response text is never empty. -/
theorem getDoneResponse_ne (tasks : List Task) : getDoneResponse tasks ≠ "" := by
  unfold getDoneResponse
  dsimp only
  split
  · decide
  · repeat (first | decide | exact append_ne_right _ (by decide) | apply append_ne_left)

/-- The summary base text is never empty. -/
theorem summaryBase_ne (tasks : List Task) : summaryBase tasks ≠ "" := by
  unfold summaryBase
  repeat (first | decide | exact append_ne_right _ (by decide) | apply append_ne_left)

/-- The summary response text is never empty. -/
theorem getSummaryResponse_ne (tasks : List Task) :
    getSummaryResponse tasks ≠ "" :=
  append_ne_left _ (summaryBase_ne tasks)

/-- The assignee response text is never empty. -/
theorem getAssigneeResponse_ne (tasks : List Task) (assignee : String) :
    getAssigneeResponse tasks assignee ≠ "" := by
  unfold getAssigneeResponse
  dsimp only
  split
  · exact append_ne_right _ (by decide)
  · repeat (first | decide | exact append_ne_right _ (by decide) | apply append_ne_left)

/-- The workload response text is never empty. -/
theorem getWorkloadResponse_ne (tasks : List Task) :
    getWorkloadResponse tasks ≠ "" := by
  unfold getWorkloadResponse
  dsimp only
  split
  · decide
  · repeat (first | decide | exact append_ne_right _ (by decide) | apply append_ne_left)

/-- The priority response text is never empty. -/
theorem getPriorityResponse_ne (tasks : List Task) :
    getPriorityResponse tasks ≠ "" := by
  unfold getPriorityResponse
  dsimp only
  split
  · decide
  · repeat (first | decide | exact append_ne_right _ (by decide) | apply append_ne_left)

/-- The search-results response text is never empty. -/
theorem getSearchResultsResponse_ne (query : String) (results : List Task) :
    getSearchResultsResponse query results ≠ "" := by
  unfold getSearchResultsResponse
  split
  · repeat (first | decide | exact append_ne_right _ (by decide) | apply append_ne_left)
  · repeat (first | decide | exact append_ne_right _ (by decide) | apply append_ne_left)

/-- The create-task response text is never empty. -/
theorem getCreateTaskResponse_ne (query : String) :
    getCreateTaskResponse query ≠ "" := by
  unfold getCreateTaskResponse
  dsimp only
  split
  · decide
  · repeat (first | decide | exact append_ne_right _ (by decide) | apply append_ne_left)

/-- The default response text is never empty. -/
theorem getDefaultResponse_ne (query : String) : getDefaultResponse query ≠ "" := by
  unfold getDefaultResponse
  repeat (first | decide | exact append_ne_right _ (by decide) | apply append_ne_left)

/-- The weekly-analytics response text is never empty, for both fetch
outcomes. -/
theorem handleWeeklyResolvedQuery_text_ne (query : String)
    (fetched : Option Analytics) :
    (handleWeeklyResolvedQuery query fetched).text ≠ "" := by
  cases fetched with
  | none =>
    dsimp only [handleWeeklyResolvedQuery]
    decide
  | some analytics =>
    dsimp only [handleWeeklyResolvedQuery]
    repeat (first | decide | exact append_ne_right _ (by decide) | apply append_ne_left)

/-- Bumping a key adds exactly one to the total count. -/
theorem sumCounts_bumpCount (key : String) (l : List (String × Nat)) :
    sumCounts (bumpCount key l) = sumCounts l + 1 := by
  induction l with
  | nil => rfl
  | cons p rest ih =>
    obtain ⟨k, v⟩ := p
    simp only [bumpCount]
    split
    · simp [sumCounts]
      omega
    · simp only [sumCounts, List.map_cons, List.sum_cons] at ih ⊢
      omega

/-- Folding the count-bump step over a task list adds the list length to the
accumulated total. -/
theorem sumCounts_foldl (tasks : List Task) (acc : List (String × Nat)) :
    sumCounts (tasks.foldl (fun a t => bumpCount t.status a) acc) =
      sumCounts acc + tasks.length := by
  induction tasks generalizing acc with
  | nil => simp
  | cons t ts ih =>
    simp only [List.foldl_cons, List.length_cons, ih, sumCounts_bumpCount]
    omega

/-- Every count stored by `bumpCount` is positive (given the invariant for
the input). -/
theorem bumpCount_pos (key : String) (l : List (String × Nat))
    (h : ∀ p ∈ l, 0 < p.2) : ∀ p ∈ bumpCount key l, 0 < p.2 := by
  induction l with
  | nil =>
    intro p hp
    simp only [bumpCount, List.mem_singleton] at hp
    subst hp
    simp
  | cons q rest ih =>
    obtain ⟨k, v⟩ := q
    intro p hp
    simp only [bumpCount] at hp
    split at hp
    · rcases List.mem_cons.mp hp with h1 | h1
      · subst h1; simp
      · exact h p (List.mem_cons_of_mem _ h1)
    · rcases List.mem_cons.mp hp with h1 | h1
      · subst h1; exact h (k, v) (List.mem_cons_self _ _)
      · exact ih (fun q hq => h q (List.mem_cons_of_mem _ hq)) p h1

/-- Every count in a status-count object is positive. -/
theorem statusCounts_pos (tasks : List Task) :
    ∀ p ∈ statusCounts tasks, 0 < p.2 := by
  suffices h : ∀ acc, (∀ p ∈ acc, 0 < p.2) →
      ∀ p ∈ tasks.foldl (fun a t => bumpCount t.status a) acc, 0 < p.2 by
    exact h [] (by simp)
  induction tasks with
  | nil => intro acc hacc; simpa using hacc
  | cons t ts ih =>
    intro acc hacc
    simp only [List.foldl_cons]
    exact ih _ (bumpCount_pos _ _ hacc)

/-- With all counts positive, a key looks up to zero exactly when it is
absent. -/
theorem lookupCount_eq_zero_iff (key : String) (l : List (String × Nat))
    (h : ∀ p ∈ l, 0 < p.2) :
    lookupCount key l = 0 ↔ key ∉ l.map Prod.fst := by
  induction l with
  | nil => simp [lookupCount]
  | cons p rest ih =>
    obtain ⟨k, v⟩ := p
    simp only [lookupCount, List.map_cons, List.mem_cons]
    split
    · have hv : 0 < v := h (k, v) (List.mem_cons_self _ _)
      subst ‹k = key›
      simp
      omega
    · rw [ih (fun q hq => h q (List.mem_cons_of_mem _ hq))]
      have : ¬ key = k := fun hk => ‹¬ k = key› hk.symm
      simp [this]

/-- Tasks used by the summary scenario of the specification: one In
Progress and two Done. -/
def summaryScenarioTasks : List Task :=
  [⟨"J-1", "", "In Progress", none, none⟩,
   ⟨"J-2", "", "Done", none, none⟩,
   ⟨"J-3", "", "Done", none, none⟩]

/-- C5: the summary branch groups tasks by status with counts summing to the
total number of tasks; the completion-percentage suffix (computed as the
rounded percentage of Done tasks) is appended exactly when a Done bucket
exists; and on the scenario snapshot of one In Progress and two Done tasks
the query "give me a summary" yields a text containing "Total Tasks: 3",
"Done: 2" and "67%". -/
theorem summary_counts_and_percent :
    (∀ tasks : List Task, sumCounts (statusCounts tasks) = tasks.length) ∧
    (∀ tasks : List Task,
      summaryPercent tasks = "" ↔
        "Done" ∉ (statusCounts tasks).map Prod.fst) ∧
    (jsIncludes (getLocalResponse summaryScenarioTasks "give me a summary" none).text
        "Total Tasks: 3" = true ∧
     jsIncludes (getLocalResponse summaryScenarioTasks "give me a summary" none).text
        "Done: 2" = true ∧
     jsIncludes (getLocalResponse summaryScenarioTasks "give me a summary" none).text
        "67%" = true) := by
  refine ⟨?_, ?_, by decide, by decide, by decide⟩
  · intro tasks
    have := sumCounts_foldl tasks []
    simpa [statusCounts, sumCounts] using this
  · intro tasks
    have hiff := lookupCount_eq_zero_iff "Done" (statusCounts tasks)
      (statusCounts_pos tasks)
    unfold summaryPercent
    by_cases hd : lookupCount "Done" (statusCounts tasks) = 0
    · simp only [hd, if_pos rfl]
      simpa using hiff.mp hd
    · rw [if_neg hd]
      constructor
      · intro hs
        exact absurd hs (append_ne_left _ (append_ne_left _ (by decide)))
      · intro hmem
        exact absurd (hiff.mpr hmem) hd

/-- C9: for every query string, every task snapshot (optional `description`
and `assignee` fields possibly absent) and every fetch outcome, the local
query resolution is a total function — the embedding terminates and no branch
fails on missing optional fields — and the produced ResponseResult is
well-formed: all fields are present by construction, and its text and
suggested-action list are non-empty. -/
theorem getLocalResponse_total_wellformed (tasks : List Task) (query : String)
    (o : Option Analytics) :
    (getLocalResponse tasks query o).text ≠ "" ∧
    (getLocalResponse tasks query o).suggestedActions ≠ [] := by
  cases h : classify tasks query <;> simp only [getLocalResponse, h]
  case createTask => exact ⟨getCreateTaskResponse_ne query, by simp⟩
  case inProgress => exact ⟨getInProgressResponse_ne tasks, by simp⟩
  case toDo => exact ⟨getToDoResponse_ne tasks, by simp⟩
  case done => exact ⟨getDoneResponse_ne tasks, by simp⟩
  case summary => exact ⟨getSummaryResponse_ne tasks, by simp⟩
  case assigneeUser1 => exact ⟨getAssigneeResponse_ne tasks _, by simp⟩
  case assigneeUser2 => exact ⟨getAssigneeResponse_ne tasks _, by simp⟩
  case weeklyAnalytics =>
    refine ⟨handleWeeklyResolvedQuery_text_ne query o, ?_⟩
    cases o <;> (dsimp only [handleWeeklyResolvedQuery]; simp)
  case workload => exact ⟨getWorkloadResponse_ne tasks, by simp⟩
  case priority => exact ⟨getPriorityResponse_ne tasks, by simp⟩
  case help => exact ⟨by decide, by simp⟩
  case search => exact ⟨getSearchResultsResponse_ne query _, by simp⟩
  case unknown => exact ⟨getDefaultResponse_ne query, by simp⟩

/-- The five searched fields of a task, in the order the source tests them;
absent optional fields contribute nothing. -/
def searchedFields (t : Task) : List String :=
  [t.title] ++ t.description.toList ++ [t.id, t.status] ++ t.assignee.toList

/-- The filter predicate of the source coincides with the specification
reading: some searched field contains the lowercased term. -/
theorem taskMatches_iff (query : String) (t : Task) :
    taskMatches query t = true ↔
      ∃ f ∈ searchedFields t,
        jsIncludes (jsToLower f) (jsToLower query) = true := by
  unfold taskMatches searchedFields
  cases hd : t.description <;> cases ha : t.assignee <;>
    simp [Bool.or_eq_true] <;> tauto

/-- C4: for every task list and non-empty term, the search returns exactly
the tasks one of whose five searched fields (title, description when
present, id, status, assignee when present) contains the term
case-insensitively, and it preserves the original relative order (the result
is a sublist of the input). -/
theorem searchTasks_exact_and_ordered (tasks : List Task) (term : String)
    (_hne : term ≠ "") :
    (searchTasks tasks term).Sublist tasks ∧
    ∀ t : Task, t ∈ searchTasks tasks term ↔
      t ∈ tasks ∧ ∃ f ∈ searchedFields t,
        jsIncludes (jsToLower f) (jsToLower term) = true := by
  constructor
  · exact List.filter_sublist tasks
  · intro t
    rw [searchTasks, List.mem_filter, taskMatches_iff]

/-- Task used in concrete instantiations. -/
def cexTask : Task := ⟨"T1", "Alpha", "Done", none, none⟩

/-- Witness instantiating the search theorem at a concrete non-empty term. -/
theorem searchTasks_exact_and_ordered_witness :
    cexTask ∈ searchTasks [cexTask] "alp" ↔
      cexTask ∈ [cexTask] ∧ ∃ f ∈ searchedFields cexTask,
        jsIncludes (jsToLower f) (jsToLower "alp") = true :=
  (searchTasks_exact_and_ordered [cexTask] "alp" (by decide)).2 cexTask

/-- The empty pattern occurs in every character list. -/
theorem listHasSub_nil (l : List Char) : listHasSub [] l = true := by
  cases l <;> simp [listHasSub, isPrefixList]

/-- JavaScript `includes("")` is true on every string. -/
theorem jsIncludes_empty (s : String) : jsIncludes s "" = true :=
  listHasSub_nil s.data

/-- C2 counterexample: on a one-task snapshot the empty query does reach the
substring search — the search matches every task on the empty term, so the
chain answers with the `search` branch (task count 1), not with the
`unknown` fallback the claim requires. -/
theorem empty_query_reaches_search :
    classify [cexTask] "" = Intent.search ∧
    Intent.search ≠ Intent.unknown ∧
    (getLocalResponse [cexTask] "" none).taskCount = 1 := by
  decide

/-- C2 amended: no keyword rule matches the empty query, so it falls through
to the search fallback, which is invoked with the empty term; the empty term
matches every task, hence the classification is `search` exactly when the
snapshot is non-empty and `unknown` only on an empty snapshot. -/
theorem empty_query_search_fallback (tasks : List Task) :
    searchTasks tasks "" = tasks ∧
    classify tasks "" =
      (if tasks.isEmpty then Intent.unknown else Intent.search) := by
  have hsearch : searchTasks tasks "" = tasks := by
    unfold searchTasks
    apply List.filter_eq_self.mpr
    intro t _
    unfold taskMatches
    rw [show jsToLower "" = "" from rfl]
    simp [jsIncludes_empty]
  refine ⟨hsearch, ?_⟩
  simp only [classify]
  rw [show jsToLower "" = "" from rfl]
  rw [show condCreate "" = false from by decide,
      show condInProgress "" = false from by decide,
      show condToDo "" = false from by decide,
      show condDone "" = false from by decide,
      show condSummary "" = false from by decide,
      show condUser1 "" = false from by decide,
      show condUser2 "" = false from by decide,
      show condWeekly "" = false from by decide,
      show condWorkload "" = false from by decide,
      show condPriority "" = false from by decide,
      show condHelp "" = false from by decide]
  rw [hsearch]
  simp

/-- The task count each branch of `getLocalResponse` actually reports, per
classified intent: the matched-subset size for the three status intents, the
two assignee intents and the search intent; the full snapshot size for
summary, workload, priority and help; zero for creation and unknown; and the
fetched `total_resolved` (zero on fetch failure) for weekly analytics. -/
def expectedTaskCount (tasks : List Task) (query : String)
    (o : Option Analytics) : Intent → Nat
  | .createTask => 0
  | .inProgress => (tasks.filter (fun t => t.status == "In Progress")).length
  | .toDo => (tasks.filter (fun t => t.status == "To Do")).length
  | .done => (tasks.filter (fun t => t.status == "Done")).length
  | .summary => tasks.length
  | .assigneeUser1 => (tasks.filter (fun t => assigneeHasToken t "user1")).length
  | .assigneeUser2 => (tasks.filter (fun t => assigneeHasToken t "user2")).length
  | .weeklyAnalytics =>
    match o with
    | some a => a.totalResolved
    | none => 0
  | .workload => tasks.length
  | .priority => tasks.length
  | .help => tasks.length
  | .search => (searchTasks tasks query).length
  | .unknown => 0

/-- C1 counterexample: the query "urgent" classifies to the priority intent
on a snapshot holding a single Done task, and the reported task count is the
full snapshot size 1, not the size 0 of the In Progress subset selected by
the filter predicate of the priority intent. -/
theorem priority_taskCount_not_filter :
    classify [cexTask] "urgent" = Intent.priority ∧
    (getLocalResponse [cexTask] "urgent" none).taskCount = 1 ∧
    ([cexTask].filter (fun t => t.status == "In Progress")).length = 0 := by
  decide

/-- C1 amended: the reported `task_count` equals the matched-subset size for
the status, assignee and search intents, but equals the full snapshot size
for the summary, workload, priority and help intents, zero for creation and
unknown, and the fetched total for weekly analytics. -/
theorem taskCount_per_intent (tasks : List Task) (query : String)
    (o : Option Analytics) :
    (getLocalResponse tasks query o).taskCount =
      expectedTaskCount tasks query o (classify tasks query) := by
  cases h : classify tasks query <;>
    simp only [getLocalResponse, h, expectedTaskCount]
  cases o <;> rfl

/-- The ordered keyword rule list of the classifier, in source order. -/
def keywordRules : List ((String → Bool) × Intent) :=
  [(condCreate, .createTask), (condInProgress, .inProgress),
   (condToDo, .toDo), (condDone, .done), (condSummary, .summary),
   (condUser1, .assigneeUser1), (condUser2, .assigneeUser2),
   (condWeekly, .weeklyAnalytics), (condWorkload, .workload),
   (condPriority, .priority), (condHelp, .help)]

/-- First-match-wins evaluation of an ordered rule list (the matching policy
as the specification words it). -/
def firstMatch (dflt : Intent) (lq : String) :
    List ((String → Bool) × Intent) → Intent
  | [] => dflt
  | (p, i) :: rest => if p lq then i else firstMatch dflt lq rest

/-- Classifier as the specification describes it: the ordered rule list
evaluated first-match-wins on the lowercased query, defaulting to the search
fallback (search when the substring search finds anything, unknown
otherwise). -/
def specClassify (tasks : List Task) (query : String) : Intent :=
  firstMatch
    (if (searchTasks tasks query).isEmpty then .unknown else .search)
    (jsToLower query) keywordRules

/-- C6: classification is first-match-wins over the fixed ordered rule list
in the order creation, status keywords, summary, assignee, weekly analytics,
workload, priority, help, then the search/unknown fallback; it is
case-insensitive (it depends on the query only through its lowercasing); and
a query holding both a creation verb and a priority keyword resolves to the
creation intent. -/
theorem classify_first_match_wins :
    (∀ (tasks : List Task) (query : String),
      classify tasks query = specClassify tasks query) ∧
    (∀ (tasks : List Task) (q1 q2 : String), jsToLower q1 = jsToLower q2 →
      classify tasks q1 = classify tasks q2) ∧
    (∀ tasks : List Task,
      classify tasks "create task: fix urgent bug" = Intent.createTask) := by
  refine ⟨fun tasks query => rfl, ?_, ?_⟩
  · intro tasks q1 q2 h
    have hfun : taskMatches q1 = taskMatches q2 := by
      funext t
      simp only [taskMatches, h]
    simp only [classify, searchTasks, hfun, h]
  · intro tasks
    have hc : condCreate (jsToLower "create task: fix urgent bug") = true := by
      decide
    simp [classify, hc]

/-- Witness instantiating case-insensitive classification on two concrete
casings of the same query. -/
theorem classify_first_match_wins_witness :
    classify [] "CREATE Task: Demo" = classify [] "create task: demo" :=
  classify_first_match_wins.2.1 [] "CREATE Task: Demo" "create task: demo"
    (by decide)

/-- The fixed per-intent chart mapping implemented by the non-weekly
branches. -/
def intentChart : Intent → Option String
  | .createTask => none
  | .inProgress => some "timeline"
  | .toDo => some "table"
  | .done => some "pie"
  | .summary => some "pie"
  | .assigneeUser1 => some "bar"
  | .assigneeUser2 => some "bar"
  | .weeklyAnalytics => none
  | .workload => some "bar"
  | .priority => some "bar"
  | .help => none
  | .search => some "table"
  | .unknown => none

/-- Analytics value used in concrete instantiations of the weekly branch. -/
def sampleAnalytics : Analytics :=
  ⟨"2", 4, 2, [("Sep 01", 2), ("Sep 08", 2)]⟩

/-- C7 counterexample: for the same query and the same (empty) snapshot the
weekly-analytics branch recommends the chart "weekly_trend" when the
analytics fetch succeeds and no chart when it fails — the recommendation is
not a fixed function of the classified intent and does vary at runtime. -/
theorem weekly_chart_varies :
    (getLocalResponse [] "weekly resolved" (some sampleAnalytics)).chartRecommendation
        = some "weekly_trend" ∧
    (getLocalResponse [] "weekly resolved" none).chartRecommendation = none ∧
    some "weekly_trend" ≠ (none : Option String) := by
  decide

/-- C7 amended: for every query that does not classify to the
weekly-analytics intent the chart recommendation is the fixed per-intent
mapping (with priority also mapping to bar); the weekly branch instead
recommends weekly_trend on fetch success and nothing on failure; and the
query about work in progress on an empty snapshot yields task count 0 and
the timeline chart. -/
theorem chartRecommendation_fixed_by_intent :
    (∀ (tasks : List Task) (query : String) (o : Option Analytics),
      classify tasks query ≠ Intent.weeklyAnalytics →
        (getLocalResponse tasks query o).chartRecommendation =
          intentChart (classify tasks query)) ∧
    (∀ o : Option Analytics,
      (getLocalResponse [] "what\u0027s in progress?" o).taskCount = 0 ∧
      (getLocalResponse [] "what\u0027s in progress?" o).chartRecommendation =
        some "timeline") := by
  constructor
  · intro tasks query o h
    cases hc : classify tasks query <;>
      simp only [getLocalResponse, hc, intentChart]
    exact absurd hc h
  · intro o
    exact ⟨rfl, rfl⟩

/-- Witness instantiating the fixed chart mapping at a non-weekly query. -/
theorem chartRecommendation_fixed_by_intent_witness :
    (getLocalResponse [] "give me a summary" none).chartRecommendation =
      intentChart (classify [] "give me a summary") :=
  chartRecommendation_fixed_by_intent.1 [] "give me a summary" none (by decide)

/-- C8 counterexample: with the same query string and the same (empty) task
snapshot, the weekly-analytics branch produces different ResponseResults for
different fetch outcomes — the local resolution is not a function of the
query and snapshot alone. -/
theorem weekly_result_depends_on_fetch :
    getLocalResponse [] "weekly resolved" (some sampleAnalytics) ≠
      getLocalResponse [] "weekly resolved" none := by
  decide

/-- C8 amended: outside the weekly-analytics intent the local resolution is
a pure, deterministic function of the query string and the task snapshot: it
is independent of the fetch-outcome oracle, the only other input. -/
theorem getLocalResponse_deterministic_nonweekly (tasks : List Task)
    (query : String) (o1 o2 : Option Analytics)
    (h : classify tasks query ≠ Intent.weeklyAnalytics) :
    getLocalResponse tasks query o1 = getLocalResponse tasks query o2 := by
  cases hc : classify tasks query <;>
    simp only [getLocalResponse, hc]
  exact absurd hc h

/-- Witness instantiating oracle independence at a concrete help query. -/
theorem getLocalResponse_deterministic_nonweekly_witness :
    getLocalResponse [] "hello help" none =
      getLocalResponse [] "hello help" (some sampleAnalytics) :=
  getLocalResponse_deterministic_nonweekly [] "hello help" none
    (some sampleAnalytics) (by decide)

set_option maxHeartbeats 1000000 in
/-- C10: a query that classifies to the task-creation intent gets a response
that is independent of the task snapshot (and of the fetch oracle): any two
snapshots produce the identical result, with task count 0 and no chart
recommendation. -/
theorem create_branch_ignores_snapshot (query : String)
    (tasks1 tasks2 : List Task) (o1 o2 : Option Analytics)
    (h : classify tasks1 query = Intent.createTask) :
    getLocalResponse tasks1 query o1 = getLocalResponse tasks2 query o2 ∧
    (getLocalResponse tasks1 query o1).taskCount = 0 ∧
    (getLocalResponse tasks1 query o1).chartRecommendation = none := by
  by_cases hcond : condCreate (jsToLower query) = true
  · have h2 : classify tasks2 query = Intent.createTask := by
      simp only [classify]
      rw [if_pos hcond]
    refine ⟨?_, ?_, ?_⟩ <;> simp only [getLocalResponse, h, h2]
  · exfalso
    simp only [classify] at h
    rw [if_neg hcond] at h
    repeat' split at h
    all_goals exact Intent.noConfusion h

/-- Witness instantiating snapshot independence of the creation branch. -/
theorem create_branch_ignores_snapshot_witness :
    getLocalResponse [] "create task: demo" none =
      getLocalResponse [cexTask] "create task: demo" (some sampleAnalytics) :=
  (create_branch_ignores_snapshot "create task: demo" [] [cexTask] none
    (some sampleAnalytics) (by decide)).1

/-- Matching a keyword against itself (followed by anything) succeeds and
returns the remainder. -/
theorem matchKeywordCI_self (kw rest : List Char) :
    matchKeywordCI kw (kw ++ rest) = some rest := by
  induction kw with
  | nil => rfl
  | cons c cs ih => simp [matchKeywordCI, ih]

/-- Dropping a satisfied prefix twice is the same as dropping it once. -/
theorem dropWhile_dropWhile (p : Char → Bool) (l : List Char) :
    (l.dropWhile p).dropWhile p = l.dropWhile p := by
  induction l with
  | nil => rfl
  | cons c t ih =>
    by_cases h : p c = true
    · simp [List.dropWhile_cons, h, ih]
    · simp [List.dropWhile_cons, h]

/-- `takeWhile` keeps the whole list when the predicate holds throughout. -/
theorem takeWhile_of_all {p : Char → Bool} :
    ∀ l : List Char, (∀ a ∈ l, p a = true) → l.takeWhile p = l := by
  intro l h
  induction l with
  | nil => rfl
  | cons c t ih =>
    rw [List.takeWhile_cons, h c (List.mem_cons_self _ _)]
    simp [ih (fun a ha => h a (List.mem_cons_of_mem _ ha))]

/-- A successful pattern attempt at the head position is what the
leftmost-match search returns. -/
theorem findCap_head {kw : List Char} :
    ∀ {l cap : List Char}, capAt kw l = some cap → findCap kw l = some cap := by
  intro l cap h
  cases l with
  | nil =>
    exfalso
    cases kw <;> simp [capAt, matchKeywordCI] at h
  | cons c t => simp [findCap, h]

/-- C3 counterexample: for the query formed by "create task:" followed by
the text " fix bug. urgently", the extracted title is "fix bug" — the
capture stops at the sentence punctuation — and not the trimmed text
"fix bug. urgently" that the claim requires. -/
theorem createTitle_stops_at_punctuation :
    "create task: fix bug. urgently" = "create task:" ++ " fix bug. urgently" ∧
    extractTitle "create task: fix bug. urgently" = "fix bug" ∧
    jsTrim " fix bug. urgently" = "fix bug. urgently" ∧
    ("fix bug" : String) ≠ "fix bug. urgently" := by
  decide

/-- C3 amended: when the text T after "create task:" contains none of the
capture-stopping characters `.`, `!`, `?`, and its leading separator run is
plain whitespace (no stray colons), the creation branch extracts exactly T
trimmed of surrounding whitespace; in general the capture stops at the first
sentence punctuation inside T. -/
theorem createTitle_extracts_trimmed_prefix (T : String)
    (hstop : ∀ c ∈ T.data, isStopChar c = false)
    (hsep : T.data.dropWhile isSepChar = T.data.dropWhile Char.isWhitespace)
    (hne : T.data.dropWhile isSepChar ≠ []) :
    extractTitle ("create task:" ++ T) = jsTrim T := by
  have hsplit : ("create task:" ++ T).data =
      "create task".data ++ (':' :: T.data) := by
    cases T with
    | mk d => rfl
  have htake : (T.data.dropWhile isSepChar).takeWhile
      (fun ch => !(isStopChar ch)) = T.data.dropWhile isSepChar := by
    apply takeWhile_of_all
    intro a ha
    have haT : a ∈ T.data :=
      (List.dropWhile_sublist isSepChar).subset ha
    rw [hstop a haT]
    rfl
  have hcap : capAt "create task".data (("create task:" ++ T).data) =
      some (T.data.dropWhile isSepChar) := by
    rw [hsplit]
    simp only [capAt, matchKeywordCI_self]
    rw [show isSepChar ':' = true from rfl]
    simp [htake]
  have hfind : findCap "create task".data (("create task:" ++ T).data) =
      some (T.data.dropWhile isSepChar) := findCap_head hcap
  have hemp : (T.data.dropWhile isSepChar).isEmpty = false := by
    cases hx : T.data.dropWhile isSepChar with
    | nil => exact absurd hx hne
    | cons a t => rfl
  rw [extractTitle, createKeywords]
  simp only [extractFrom, hfind, hemp]
  rw [if_neg (by simp [hemp])]
  rw [hsep]
  simp only [jsTrim]
  rw [dropWhile_dropWhile]

/-- Witness instantiating title extraction on a concrete punctuation-free
text. -/
theorem createTitle_extracts_trimmed_prefix_witness :
    extractTitle ("create task:" ++ " Fix login bug ") = jsTrim " Fix login bug " :=
  createTitle_extracts_trimmed_prefix " Fix login bug "
    (by decide) (by decide) (by decide)

end JiraHelper
